import Mathlib

/-!
Verification of the `PikIntercomCamera` entity adapter
(`custom_components/pik_intercom/camera.py`).

The adapter is shallowly embedded as pure Lean functions.  The mutable
per-entity failure counter (`self._failed_retrieval_counter`) is threaded
explicitly: `async_camera_image` takes the counter before the call and
reports the counter after the call in its outcome record.  The three
external asynchronous operations the adapter awaits — the device's
snapshot fetch, the ffmpeg frame probe, and the API object's
property-intercom refresh — are supplied as a per-call environment of
outcomes (`CallEnv`); the outcome record also lists the calls the adapter
issued, so claims about "exactly one refresh call" or "no API contact"
are stated over those lists.
-/

set_option autoImplicit false

namespace PikIntercom

/-- Raw image bytes (the `bytes` payloads the Python code passes around). -/
abbrev Bytes := List Nat

/-- The vendor API's domain-specific exception type (`PikIntercomException`
from `custom_components/pik_intercom/api.py`); only its identity matters
to the camera adapter, which never inspects the payload. -/
structure PikIntercomException where
  msg : String
deriving Repr, DecidableEq

/-- Modelled from the spec: the device's `video` attribute comes from the
API module, which is not under `src/`; the spec describes it as "a
multi-valued mapping of quality→stream source".  It is modelled as an
ordered association from each quality key to its list of stream sources. -/
abbrev VideoStreams := List (String × List String)

/-- The vendor-reported intercom device, as read (never written) by the
camera adapter: photo URL, stream URL, owning property id and the
quality→sources stream mapping.  `Option String` URLs with Python
truthiness: `none` and `some ""` both count as absent. -/
structure IntercomDevice where
  photo_url : Option String
  stream_url : Option String
  property_id : Nat
  video : Option VideoStreams
  face_detection : Bool
deriving Repr, DecidableEq

/-- Python truthiness of an optional string: `None` and `""` are falsy. -/
def optStrTruthy : Option String → Bool
  | none => false
  | some s => s != ""

/-- `keys()` of the modelled quality→sources mapping, in entry order. -/
def videoKeys (streams : VideoStreams) : List String :=
  streams.map Prod.fst

/-- `getall(key)` of the modelled quality→sources mapping: all sources
stored under `key` (first matching entry; keys of a mapping are distinct). -/
def videoGetall (streams : VideoStreams) (key : String) : List String :=
  ((streams.find? (fun p => p.fst == key)).map Prod.snd).getD []

/-- The `device_state_attributes` mapping exposed by the adapter. -/
structure DeviceStateAttributes where
  photo_url : Option String
  stream_url : Option String
  all_stream_urls : List (String × String)
  face_detection : Bool
deriving Repr, DecidableEq

/-- `PikIntercomCamera.device_state_attributes` (camera.py:109-122): the
`all_stream_urls` entry flattens the stream mapping with
`[{quality: key, source: value} for key in (streams.keys() if streams else ())
for value in streams.getall(key)]`; a `{quality, source}` record is a
`(quality, source)` pair. -/
def device_state_attributes (dev : IntercomDevice) : DeviceStateAttributes :=
  { photo_url := dev.photo_url
    stream_url := dev.stream_url
    all_stream_urls :=
      match dev.video with
      | none => []
      | some intercom_streams =>
        (if intercom_streams.isEmpty then [] else videoKeys intercom_streams).flatMap
          (fun key =>
            (videoGetall intercom_streams key).map (fun value => (key, value)))
    face_detection := dev.face_detection }

/-- `PikIntercomCamera.retrieval_error_threshold` (camera.py:60-67): the
configured per-entry threshold floored at 5 via `max(configured, 5)`. -/
def retrieval_error_threshold (configured : Int) : Int :=
  max configured 5

instance {ε α : Type} [DecidableEq ε] [DecidableEq α] : DecidableEq (Except ε α) := fun x y =>
  match x, y with
  | Except.ok a, Except.ok b =>
    if h : a = b then Decidable.isTrue (by rw [h]) else Decidable.isFalse (by simp [h])
  | Except.ok _, Except.error _ => Decidable.isFalse (by simp)
  | Except.error _, Except.ok _ => Decidable.isFalse (by simp)
  | Except.error a, Except.error b =>
    if h : a = b then Decidable.isTrue (by rw [h]) else Decidable.isFalse (by simp [h])

/-- Outcomes of the external asynchronous operations available to one
`async_camera_image` call: the device snapshot fetch (bytes or a raised
`PikIntercomException`), the ffmpeg frame probe (bytes or `None`), and
the API object's `async_update_property_intercoms` refresh (unit or a
raised exception). -/
structure CallEnv where
  snapshotResult : Except PikIntercomException Bytes
  ffmpegResult : Option Bytes
  refreshResult : Except PikIntercomException Unit
deriving Repr, DecidableEq

/-- `true` exactly when this call's snapshot fetch would raise. -/
def isSnapshotError (env : CallEnv) : Bool :=
  match env.snapshotResult with
  | Except.error _ => true
  | Except.ok _ => false

/-- Observable outcome of one `async_camera_image` call: the value
returned to the caller (`Except.error` when an uncaught exception
propagates), the failure counter after the call, the external calls
issued, and the number of warning/error log records emitted. -/
structure FetchOutcome where
  result : Except PikIntercomException (Option Bytes)
  counter : Nat
  snapshotCalls : Nat
  ffmpegCalls : List (String × Option Nat × Option Nat)
  refreshCalls : List Nat
  warnings : Nat
  errors : Nat
deriving Repr, DecidableEq

/-- Outcome of the `return None` after the "No video source available"
warning (camera.py:164-165): counter untouched, no external call. -/
def noVideoSource (failed_retrieval_counter : Nat) : FetchOutcome :=
  { result := Except.ok none
    counter := failed_retrieval_counter
    snapshotCalls := 0
    ffmpegCalls := []
    refreshCalls := []
    warnings := 1
    errors := 0 }

/-- `PikIntercomCamera.async_camera_image` (camera.py:144-196), with the
entity state (`self._failed_retrieval_counter`) passed in explicitly and
the configured threshold behind `retrieval_error_threshold`.

* no truthy `photo_url`: fall back to the stream URL; if truthy, await
  the ffmpeg probe and return its image, warning and returning `None`
  when it yields nothing; otherwise warn and return `None` (camera.py:150-165);
* truthy `photo_url`: await the snapshot.  Success stores 0 into the
  counter and returns the bytes (camera.py:184-186).  A raised
  `PikIntercomException` increments the counter; strictly below the
  threshold it logs an error and returns `None` (camera.py:170-182);
  otherwise the counter is set to 0, an error is logged and the property
  refresh is awaited — uncaught, so its failure propagates, and on its
  success the function falls off the end returning `None`
  (camera.py:188-196). -/
def async_camera_image (dev : IntercomDevice) (failed_retrieval_counter : Nat)
    (configured : Int) (width height : Option Nat) (env : CallEnv) : FetchOutcome :=
  if optStrTruthy dev.photo_url = false then
    match dev.stream_url with
    | some stream_url =>
      if stream_url != "" then
        match env.ffmpegResult with
        | none =>
          { result := Except.ok none
            counter := failed_retrieval_counter
            snapshotCalls := 0
            ffmpegCalls := [(stream_url, width, height)]
            refreshCalls := []
            warnings := 1
            errors := 0 }
        | some snapshot_image =>
          { result := Except.ok (some snapshot_image)
            counter := failed_retrieval_counter
            snapshotCalls := 0
            ffmpegCalls := [(stream_url, width, height)]
            refreshCalls := []
            warnings := 0
            errors := 0 }
      else noVideoSource failed_retrieval_counter
    | none => noVideoSource failed_retrieval_counter
  else
    match env.snapshotResult with
    | Except.ok snapshot_image =>
      { result := Except.ok (some snapshot_image)
        counter := 0
        snapshotCalls := 1
        ffmpegCalls := []
        refreshCalls := []
        warnings := 0
        errors := 0 }
    | Except.error _ =>
      let c := failed_retrieval_counter + 1
      if (c : Int) < retrieval_error_threshold configured then
        { result := Except.ok none
          counter := c
          snapshotCalls := 1
          ffmpegCalls := []
          refreshCalls := []
          warnings := 0
          errors := 1 }
      else
        match env.refreshResult with
        | Except.ok _ =>
          { result := Except.ok none
            counter := 0
            snapshotCalls := 1
            ffmpegCalls := []
            refreshCalls := [dev.property_id]
            warnings := 0
            errors := 1 }
        | Except.error refresh_error =>
          { result := Except.error refresh_error
            counter := 0
            snapshotCalls := 1
            ffmpegCalls := []
            refreshCalls := [dev.property_id]
            warnings := 0
            errors := 1 }

/-- A sequence of `async_camera_image` calls on one adapter instance,
threading the failure counter from call to call; yields the final
counter and the per-call outcomes. -/
def iterateFetch (dev : IntercomDevice) (configured : Int)
    (width height : Option Nat) : Nat → List CallEnv → Nat × List FetchOutcome
  | c, [] => (c, [])
  | c, env :: rest =>
    let out := async_camera_image dev c configured width height env
    let next := iterateFetch dev configured width height out.counter rest
    (next.fst, out :: next.snd)

/-- The spec's reading of the `all_stream_urls` attribute: "flattens a
quality→[sources] mapping into one `{quality, source}` entry per source,
preserving quality grouping" — one pair per stored source, qualities in
entry order, sources in order, empty when the mapping is absent. -/
def all_stream_urls_spec (video : Option VideoStreams) : List (String × String) :=
  match video with
  | none => []
  | some streams =>
    streams.flatMap (fun p => p.snd.map (fun value => (p.fst, value)))

/-- Flattening a list of quality keys against a lookup function; the shape
shared by the nested comprehension in `device_state_attributes`. -/
def flattenWith (getall : String → List String) : List String → List (String × String)
  | [] => []
  | key :: rest => (getall key).map (fun value => (key, value)) ++ flattenWith getall rest

/- Concrete fixtures used by the witness theorems. -/

/-- A concrete stream mapping: two qualities, the first with two sources. -/
def sampleStreams : VideoStreams :=
  [("high", ["rtsp://cam/high1", "rtsp://cam/high2"]), ("low", ["rtsp://cam/low"])]

/-- A device with a photo URL (snapshot path is taken). -/
def sampleDevice : IntercomDevice :=
  { photo_url := some ("https://cloud/photo.jpg")
    stream_url := some ("rtsp://cam/high1")
    property_id := 7
    video := some sampleStreams
    face_detection := false }

/-- A device with neither photo URL nor stream URL (the stream URL is the
falsy empty string). -/
def noUrlDevice : IntercomDevice :=
  { photo_url := none
    stream_url := some ("")
    property_id := 3
    video := none
    face_detection := false }

/-- A device with no photo URL but a truthy stream URL. -/
def streamOnlyDevice : IntercomDevice :=
  { photo_url := some ("")
    stream_url := some ("rtsp://cam/only")
    property_id := 4
    video := none
    face_detection := true }

/-- Concrete snapshot payload. -/
def snapshotBytes : Bytes := [255, 216, 255, 224]

/-- A call whose snapshot fetch raises and whose refresh succeeds. -/
def failEnv : CallEnv :=
  { snapshotResult := Except.error { msg := "HTTP 500" }
    ffmpegResult := none
    refreshResult := Except.ok () }

/-- A call whose snapshot fetch raises and whose refresh also raises. -/
def failEnvBadRefresh : CallEnv :=
  { snapshotResult := Except.error { msg := "HTTP 500" }
    ffmpegResult := none
    refreshResult := Except.error { msg := "refresh down" } }

/-- A call whose snapshot fetch succeeds. -/
def okEnv : CallEnv :=
  { snapshotResult := Except.ok snapshotBytes
    ffmpegResult := some snapshotBytes
    refreshResult := Except.ok () }

/- Helper lemmas. -/

theorem flatMap_eq_flattenWith (g : String → List String) (keys : List String) :
    keys.flatMap (fun key => (g key).map (fun value => (key, value)))
      = flattenWith g keys := by
  induction keys with
  | nil => rfl
  | cons k ks ih => simp [flattenWith, ih]

theorem flattenWith_congr (f g : String → List String) :
    ∀ keys : List String, (∀ k ∈ keys, f k = g k) →
      flattenWith f keys = flattenWith g keys := by
  intro keys
  induction keys with
  | nil => intro _; rfl
  | cons k ks ih =>
    intro h
    simp only [flattenWith, h k (by simp)]
    rw [ih (fun x hx => h x (by simp [hx]))]

theorem videoGetall_head (k : String) (vs : List String) (rest : VideoStreams) :
    videoGetall ((k, vs) :: rest) k = vs := by
  simp [videoGetall]

theorem videoGetall_skip (k key : String) (vs : List String) (rest : VideoStreams)
    (hne : k ≠ key) : videoGetall ((k, vs) :: rest) key = videoGetall rest key := by
  have hp : ¬ ((fun p : String × List String => p.fst == key) (k, vs) = true) := by
    simp [hne]
  unfold videoGetall
  rw [List.find?_cons_of_neg (p := fun p : String × List String => p.fst == key)
    (a := (k, vs)) rest hp]

theorem flattenWith_keys_of_nodup :
    ∀ s : VideoStreams, (videoKeys s).Nodup →
      flattenWith (videoGetall s) (videoKeys s)
        = s.flatMap (fun p => p.snd.map (fun value => (p.fst, value))) := by
  intro s
  induction s with
  | nil => intro _; rfl
  | cons p rest ih =>
    intro hnd
    obtain ⟨k, vs⟩ := p
    have hkeys : videoKeys ((k, vs) :: rest) = k :: videoKeys rest := rfl
    rw [hkeys] at hnd ⊢
    have hk : k ∉ videoKeys rest := (List.nodup_cons.mp hnd).1
    have hnd' : (videoKeys rest).Nodup := (List.nodup_cons.mp hnd).2
    have h2 : flattenWith (videoGetall ((k, vs) :: rest)) (videoKeys rest)
        = flattenWith (videoGetall rest) (videoKeys rest) :=
      flattenWith_congr _ _ _ (fun key hkey =>
        videoGetall_skip k key vs rest (fun hEq => hk (hEq ▸ hkey)))
    simp only [flattenWith, videoGetall_head, h2, ih hnd']
    simp

theorem isEmpty_guard_flatMap (s : VideoStreams) (f : String → List (String × String)) :
    (if s.isEmpty then [] else videoKeys s).flatMap f = (videoKeys s).flatMap f := by
  cases s <;> simp [videoKeys]

theorem iterateFetch_failures_general (dev : IntercomDevice) (cfg : Int)
    (w h : Option Nat) (hphoto : optStrTruthy dev.photo_url = true) :
    ∀ (envs : List CallEnv) (c : Nat),
      (∀ env ∈ envs, isSnapshotError env = true) →
      (c : Int) + envs.length < retrieval_error_threshold cfg →
      (iterateFetch dev cfg w h c envs).fst = c + envs.length ∧
        ∀ out ∈ (iterateFetch dev cfg w h c envs).snd, out.result = Except.ok none := by
  intro envs
  induction envs with
  | nil =>
    intro c _ _
    simp [iterateFetch]
  | cons env rest ih =>
    intro c hfail hlen
    obtain ⟨e, he⟩ : ∃ e, env.snapshotResult = Except.error e := by
      have hf := hfail env (List.mem_cons_self env rest)
      cases hs : env.snapshotResult with
      | ok v => simp [isSnapshotError, hs] at hf
      | error e => exact ⟨e, rfl⟩
    have hnonneg : (0 : Int) ≤ (rest.length : Int) := Int.natCast_nonneg _
    have hlen' : (c : Int) + (rest.length : Int) + 1 < retrieval_error_threshold cfg := by
      simp only [List.length_cons] at hlen
      push_cast at hlen
      linarith
    have hlt : (c : Int) + 1 < retrieval_error_threshold cfg := by linarith
    have hout : async_camera_image dev c cfg w h env =
        { result := Except.ok none
          counter := c + 1
          snapshotCalls := 1
          ffmpegCalls := []
          refreshCalls := []
          warnings := 0
          errors := 1 } := by
      simp [async_camera_image, hphoto, he, hlt]
    have key : iterateFetch dev cfg w h c (env :: rest) =
        ((iterateFetch dev cfg w h (c + 1) rest).fst,
          { result := Except.ok none
            counter := c + 1
            snapshotCalls := 1
            ffmpegCalls := []
            refreshCalls := []
            warnings := 0
            errors := 1 }
            :: (iterateFetch dev cfg w h (c + 1) rest).snd) := by
      simp [iterateFetch, hout]
    obtain ⟨ih1, ih2⟩ := ih (c + 1)
      (fun env2 hm => hfail env2 (List.mem_cons_of_mem _ hm))
      (by push_cast; linarith)
    rw [key]
    refine ⟨?_, ?_⟩
    · simp only [ih1, List.length_cons]
      omega
    · intro out hm
      rcases List.mem_cons.mp hm with hout2 | hm2
      · subst hout2; rfl
      · exact ih2 out hm2

/- Claim theorems. -/

/-- Claim C7: for every configured retrieval-error-threshold value, the
effective threshold used by the adapter equals the maximum of the
configured value and 5, so it is never below 5. -/
theorem retrieval_error_threshold_floor (configured : Int) :
    retrieval_error_threshold configured = max configured 5 ∧
      5 ≤ retrieval_error_threshold configured :=
  ⟨rfl, le_max_right configured 5⟩

/-- Claim C9: the failure counter of one adapter instance changes only as
follows over image-fetch calls, as a function of the pre-call counter: it
is untouched when the device has no truthy photo URL, set to 0 on a
successful snapshot, incremented by exactly one on a caught failure
strictly below the threshold, and set to 0 on a threshold trip; no other
change is possible. -/
theorem camera_counter_transition (dev : IntercomDevice) (c : Nat) (cfg : Int)
    (w h : Option Nat) (env : CallEnv) :
    (async_camera_image dev c cfg w h env).counter =
      if optStrTruthy dev.photo_url then
        match env.snapshotResult with
        | Except.ok _ => 0
        | Except.error _ =>
          if (c : Int) + 1 < retrieval_error_threshold cfg then c + 1 else 0
      else c := by
  cases hphoto : optStrTruthy dev.photo_url with
  | false =>
    cases hs : dev.stream_url with
    | none => simp [async_camera_image, hphoto, hs, noVideoSource]
    | some s =>
      cases hb : (s != "") with
      | false => simp [async_camera_image, hphoto, hs, hb, noVideoSource]
      | true =>
        cases hf : env.ffmpegResult <;>
          simp [async_camera_image, hphoto, hs, hb, hf]
  | true =>
    cases hsnap : env.snapshotResult with
    | ok img => simp [async_camera_image, hphoto, hsnap]
    | error e =>
      by_cases hlt : (c : Int) + 1 < retrieval_error_threshold cfg
      · simp [async_camera_image, hphoto, hsnap, hlt]
      · cases hr : env.refreshResult <;>
          simp [async_camera_image, hphoto, hsnap, hlt, hr]

/-- Claim C1: with a photo URL present, a failed snapshot fetch whose
incremented failure counter equals the threshold resets the counter to 0,
issues exactly one refresh call carrying the device's property id, and
(the refresh call itself succeeding) returns none. -/
theorem camera_threshold_trip_resets_and_refreshes (dev : IntercomDevice)
    (c : Nat) (cfg : Int) (w h : Option Nat) (env : CallEnv)
    (hphoto : optStrTruthy dev.photo_url = true)
    (hsnap : isSnapshotError env = true)
    (hthr : (c : Int) + 1 = retrieval_error_threshold cfg)
    (hrefresh : env.refreshResult = Except.ok ()) :
    (async_camera_image dev c cfg w h env).counter = 0 ∧
      (async_camera_image dev c cfg w h env).refreshCalls = [dev.property_id] ∧
      (async_camera_image dev c cfg w h env).result = Except.ok none := by
  obtain ⟨e, he⟩ : ∃ e, env.snapshotResult = Except.error e := by
    cases hs : env.snapshotResult with
    | ok v => simp [isSnapshotError, hs] at hsnap
    | error e => exact ⟨e, rfl⟩
  have hnot : ¬ ((c : Int) + 1 < retrieval_error_threshold cfg) := by
    rw [← hthr]
    exact lt_irrefl _
  simp [async_camera_image, hphoto, he, hnot, hrefresh]

/-- Witness for claim C1: a concrete device and environment where the
fifth consecutive failure (threshold `max 0 5 = 5`) trips the refresh. -/
theorem camera_threshold_trip_witness :
    optStrTruthy sampleDevice.photo_url = true ∧
      isSnapshotError failEnv = true ∧
      ((4 : Nat) : Int) + 1 = retrieval_error_threshold 0 ∧
      failEnv.refreshResult = Except.ok () ∧
      ((async_camera_image sampleDevice 4 0 none none failEnv).counter = 0 ∧
        (async_camera_image sampleDevice 4 0 none none failEnv).refreshCalls
          = [sampleDevice.property_id] ∧
        (async_camera_image sampleDevice 4 0 none none failEnv).result
          = Except.ok none) :=
  ⟨by decide, by decide, by decide, by decide,
    camera_threshold_trip_resets_and_refreshes sampleDevice 4 0 none none failEnv
      (by decide) (by decide) (by decide) (by decide)⟩

/-- Claim C2: with a photo URL present, any N consecutive failing snapshot
fetches with N strictly below the threshold are all absorbed: each call
returns none without re-raising, and the failure counter after the N-th
call equals N. -/
theorem camera_subthreshold_failures_absorbed (dev : IntercomDevice) (cfg : Int)
    (w h : Option Nat) (envs : List CallEnv)
    (hphoto : optStrTruthy dev.photo_url = true)
    (hfail : ∀ env ∈ envs, isSnapshotError env = true)
    (hlen : (envs.length : Int) < retrieval_error_threshold cfg) :
    (iterateFetch dev cfg w h 0 envs).fst = envs.length ∧
      ∀ out ∈ (iterateFetch dev cfg w h 0 envs).snd,
        out.result = Except.ok none := by
  have hgen := iterateFetch_failures_general dev cfg w h hphoto envs 0 hfail
    (by push_cast; linarith)
  simpa using hgen

/-- Witness for claim C2: three consecutive failures against the
effective threshold 5 all return none and leave the counter at 3. -/
theorem camera_subthreshold_failures_witness :
    optStrTruthy sampleDevice.photo_url = true ∧
      (∀ env ∈ List.replicate 3 failEnv, isSnapshotError env = true) ∧
      ((List.replicate 3 failEnv).length : Int) < retrieval_error_threshold 0 ∧
      ((iterateFetch sampleDevice 0 none none 0 (List.replicate 3 failEnv)).fst
          = (List.replicate 3 failEnv).length ∧
        ∀ out ∈ (iterateFetch sampleDevice 0 none none 0 (List.replicate 3 failEnv)).snd,
          out.result = Except.ok none) :=
  ⟨by decide, by decide, by decide,
    camera_subthreshold_failures_absorbed sampleDevice 0 none none
      (List.replicate 3 failEnv) (by decide) (by decide) (by decide)⟩

/-- Claim C3: with a photo URL present, a successful snapshot fetch resets
the failure counter to 0, whatever its prior value, and returns the bytes
obtained from the device's snapshot operation. -/
theorem camera_success_resets_counter (dev : IntercomDevice) (c : Nat) (cfg : Int)
    (w h : Option Nat) (env : CallEnv) (img : Bytes)
    (hphoto : optStrTruthy dev.photo_url = true)
    (hsnap : env.snapshotResult = Except.ok img) :
    (async_camera_image dev c cfg w h env).counter = 0 ∧
      (async_camera_image dev c cfg w h env).result = Except.ok (some img) := by
  simp [async_camera_image, hphoto, hsnap]

/-- Witness for claim C3: a success at counter 3 returns the snapshot
bytes and resets the counter. -/
theorem camera_success_resets_witness :
    optStrTruthy sampleDevice.photo_url = true ∧
      okEnv.snapshotResult = Except.ok snapshotBytes ∧
      ((async_camera_image sampleDevice 3 0 none none okEnv).counter = 0 ∧
        (async_camera_image sampleDevice 3 0 none none okEnv).result
          = Except.ok (some snapshotBytes)) :=
  ⟨by decide, by decide,
    camera_success_resets_counter sampleDevice 3 0 none none okEnv snapshotBytes
      (by decide) (by decide)⟩

/-- Claim C4: a device with no truthy photo URL and no truthy stream URL
yields none with one warning logged, no snapshot fetch, no refresh, no
ffmpeg probe, and an untouched failure counter. -/
theorem camera_no_source_returns_none (dev : IntercomDevice) (c : Nat) (cfg : Int)
    (w h : Option Nat) (env : CallEnv)
    (hphoto : optStrTruthy dev.photo_url = false)
    (hstream : optStrTruthy dev.stream_url = false) :
    (async_camera_image dev c cfg w h env).result = Except.ok none ∧
      (async_camera_image dev c cfg w h env).warnings = 1 ∧
      (async_camera_image dev c cfg w h env).snapshotCalls = 0 ∧
      (async_camera_image dev c cfg w h env).refreshCalls = [] ∧
      (async_camera_image dev c cfg w h env).ffmpegCalls = [] ∧
      (async_camera_image dev c cfg w h env).counter = c := by
  cases hs : dev.stream_url with
  | none => simp [async_camera_image, hphoto, hs, noVideoSource]
  | some s =>
    have hb : (s != "") = false := by
      simpa [optStrTruthy, hs] using hstream
    simp [async_camera_image, hphoto, hs, hb, noVideoSource]

/-- Witness for claim C4: a device whose photo URL is absent and whose
stream URL is the falsy empty string. -/
theorem camera_no_source_witness :
    optStrTruthy noUrlDevice.photo_url = false ∧
      optStrTruthy noUrlDevice.stream_url = false ∧
      ((async_camera_image noUrlDevice 2 0 none none okEnv).result = Except.ok none ∧
        (async_camera_image noUrlDevice 2 0 none none okEnv).warnings = 1 ∧
        (async_camera_image noUrlDevice 2 0 none none okEnv).snapshotCalls = 0 ∧
        (async_camera_image noUrlDevice 2 0 none none okEnv).refreshCalls = [] ∧
        (async_camera_image noUrlDevice 2 0 none none okEnv).ffmpegCalls = [] ∧
        (async_camera_image noUrlDevice 2 0 none none okEnv).counter = 2) :=
  ⟨by decide, by decide,
    camera_no_source_returns_none noUrlDevice 2 0 none none okEnv
      (by decide) (by decide)⟩

/-- Claim C5: a device with no truthy photo URL but a non-empty stream URL
delegates to the ffmpeg helper with that stream URL and the given width
and height, and returns the helper's result unchanged, contacting neither
the snapshot nor the refresh operation. -/
theorem camera_stream_fallback_delegates (dev : IntercomDevice) (c : Nat)
    (cfg : Int) (w h : Option Nat) (env : CallEnv) (s : String)
    (hphoto : optStrTruthy dev.photo_url = false)
    (hs : dev.stream_url = some s) (hne : s ≠ "") :
    (async_camera_image dev c cfg w h env).ffmpegCalls = [(s, w, h)] ∧
      (async_camera_image dev c cfg w h env).result = Except.ok env.ffmpegResult ∧
      (async_camera_image dev c cfg w h env).snapshotCalls = 0 ∧
      (async_camera_image dev c cfg w h env).refreshCalls = [] := by
  have hb : (s != "") = true := by simp [hne]
  cases hf : env.ffmpegResult <;> simp [async_camera_image, hphoto, hs, hb, hf]

/-- Witness for claim C5: a stream-only device probed at 640 by 480
returns the helper's bytes unchanged. -/
theorem camera_stream_fallback_witness :
    optStrTruthy streamOnlyDevice.photo_url = false ∧
      streamOnlyDevice.stream_url = some ("rtsp://cam/only") ∧
      ("rtsp://cam/only" : String) ≠ "" ∧
      ((async_camera_image streamOnlyDevice 1 0 (some 640) (some 480) okEnv).ffmpegCalls
          = [("rtsp://cam/only", some 640, some 480)] ∧
        (async_camera_image streamOnlyDevice 1 0 (some 640) (some 480) okEnv).result
          = Except.ok okEnv.ffmpegResult ∧
        (async_camera_image streamOnlyDevice 1 0 (some 640) (some 480) okEnv).snapshotCalls = 0 ∧
        (async_camera_image streamOnlyDevice 1 0 (some 640) (some 480) okEnv).refreshCalls = []) :=
  ⟨by decide, by decide, by decide,
    camera_stream_fallback_delegates streamOnlyDevice 1 0 (some 640) (some 480)
      okEnv ("rtsp://cam/only") (by decide) (by decide) (by decide)⟩

/-- Claim C8: when the threshold trips and the refresh operation itself
fails, the exception is not caught: it propagates out of the image fetch
to the caller. -/
theorem camera_refresh_failure_propagates (dev : IntercomDevice) (c : Nat)
    (cfg : Int) (w h : Option Nat) (env : CallEnv) (e2 : PikIntercomException)
    (hphoto : optStrTruthy dev.photo_url = true)
    (hsnap : isSnapshotError env = true)
    (hthr : retrieval_error_threshold cfg ≤ (c : Int) + 1)
    (hrefresh : env.refreshResult = Except.error e2) :
    (async_camera_image dev c cfg w h env).result = Except.error e2 := by
  obtain ⟨e, he⟩ : ∃ e, env.snapshotResult = Except.error e := by
    cases hs : env.snapshotResult with
    | ok v => simp [isSnapshotError, hs] at hsnap
    | error e => exact ⟨e, rfl⟩
  have hnot : ¬ ((c : Int) + 1 < retrieval_error_threshold cfg) := not_lt.mpr hthr
  simp [async_camera_image, hphoto, he, hnot, hrefresh]

/-- Witness for claim C8: at counter 9 against effective threshold
`max 7 5 = 7`, a failing refresh propagates its exception. -/
theorem camera_refresh_failure_witness :
    optStrTruthy sampleDevice.photo_url = true ∧
      isSnapshotError failEnvBadRefresh = true ∧
      retrieval_error_threshold 7 ≤ ((9 : Nat) : Int) + 1 ∧
      failEnvBadRefresh.refreshResult = Except.error { msg := "refresh down" } ∧
      (async_camera_image sampleDevice 9 7 none none failEnvBadRefresh).result
        = Except.error { msg := "refresh down" } :=
  ⟨by decide, by decide, by decide, by decide,
    camera_refresh_failure_propagates sampleDevice 9 7 none none failEnvBadRefresh
      { msg := "refresh down" } (by decide) (by decide) (by decide) (by decide)⟩

/-- Claim C10: on a threshold trip the counter is stored as 0 before the
refresh is awaited, so even when the refresh raises and the exception
propagates, the adapter's failure counter is already 0 and the refresh
call was issued. -/
theorem camera_counter_reset_before_refresh (dev : IntercomDevice) (c : Nat)
    (cfg : Int) (w h : Option Nat) (env : CallEnv) (e2 : PikIntercomException)
    (hphoto : optStrTruthy dev.photo_url = true)
    (hsnap : isSnapshotError env = true)
    (hthr : retrieval_error_threshold cfg ≤ (c : Int) + 1)
    (hrefresh : env.refreshResult = Except.error e2) :
    (async_camera_image dev c cfg w h env).counter = 0 ∧
      (async_camera_image dev c cfg w h env).refreshCalls = [dev.property_id] ∧
      (async_camera_image dev c cfg w h env).result = Except.error e2 := by
  obtain ⟨e, he⟩ : ∃ e, env.snapshotResult = Except.error e := by
    cases hs : env.snapshotResult with
    | ok v => simp [isSnapshotError, hs] at hsnap
    | error e => exact ⟨e, rfl⟩
  have hnot : ¬ ((c : Int) + 1 < retrieval_error_threshold cfg) := not_lt.mpr hthr
  simp [async_camera_image, hphoto, he, hnot, hrefresh]

/-- Witness for claim C10: the fifth failure with a failing refresh leaves
a zero counter while the exception propagates. -/
theorem camera_counter_reset_witness :
    optStrTruthy sampleDevice.photo_url = true ∧
      isSnapshotError failEnvBadRefresh = true ∧
      retrieval_error_threshold 0 ≤ ((4 : Nat) : Int) + 1 ∧
      failEnvBadRefresh.refreshResult = Except.error { msg := "refresh down" } ∧
      ((async_camera_image sampleDevice 4 0 none none failEnvBadRefresh).counter = 0 ∧
        (async_camera_image sampleDevice 4 0 none none failEnvBadRefresh).refreshCalls
          = [sampleDevice.property_id] ∧
        (async_camera_image sampleDevice 4 0 none none failEnvBadRefresh).result
          = Except.error { msg := "refresh down" }) :=
  ⟨by decide, by decide, by decide, by decide,
    camera_counter_reset_before_refresh sampleDevice 4 0 none none failEnvBadRefresh
      { msg := "refresh down" } (by decide) (by decide) (by decide) (by decide)⟩

/-- Claim C6: for a device whose stream-quality mapping has distinct
quality keys (it is a mapping), the `all_stream_urls` attribute equals the
per-entry flattening into one `(quality, source)` pair per source, keys in
entry order and sources in order; an absent mapping gives the empty list. -/
theorem all_stream_urls_flattens_mapping (dev : IntercomDevice)
    (hnd : ∀ s, dev.video = some s → (videoKeys s).Nodup) :
    (device_state_attributes dev).all_stream_urls = all_stream_urls_spec dev.video := by
  cases hv : dev.video with
  | none => simp [device_state_attributes, all_stream_urls_spec, hv]
  | some s =>
    have h1 : (device_state_attributes dev).all_stream_urls
        = flattenWith (videoGetall s) (videoKeys s) := by
      simp only [device_state_attributes, hv]
      rw [isEmpty_guard_flatMap]
      exact flatMap_eq_flattenWith _ _
    rw [h1, flattenWith_keys_of_nodup s (hnd s hv)]
    simp [all_stream_urls_spec]

/-- Witness for claim C6: a two-quality mapping with two sources under the
first quality flattens to three grouped pairs. -/
theorem all_stream_urls_flattens_witness :
    (∀ s, sampleDevice.video = some s → (videoKeys s).Nodup) ∧
      (device_state_attributes sampleDevice).all_stream_urls
        = all_stream_urls_spec sampleDevice.video := by
  have hnd : ∀ s, sampleDevice.video = some s → (videoKeys s).Nodup := by
    intro s hs
    have hs' : some sampleStreams = some s := hs
    injection hs' with h2
    subst h2
    decide
  exact ⟨hnd, all_stream_urls_flattens_mapping sampleDevice hnd⟩

end PikIntercom
